import Mathlib

/-!
Shallow embedding of the gesture-decision core of the GestureDetection
repository (`server/modules/gestures.py` plus the constants of
`shared/config.py`), and theorems checking the frozen claims against it.

Modelling conventions:
* Python floats are embedded as rationals (`ℚ`); all arithmetic in the
  embedded code paths is exact rational arithmetic.
* `numpy.sqrt` appears in the source only (a) inside comparisons of a
  Euclidean distance against a nonnegative constant threshold, which are
  embedded exactly as comparisons of the squared distance against the
  squared threshold (`sqrt d < t ↔ d < t²` for `t ≥ 0`, `d ≥ 0`), and
  (b) as the scaling divisor / positivity test in feature normalization,
  where it is kept as an explicit function parameter `s : ℚ → ℚ` standing
  for the real square root (all theorems below hold for every `s`).
* A Python `IndexError` escaping a function is modelled as `none` of an
  `Option` result; a caught `IndexError` follows the source's handler.
* `time.time()` is modelled by passing each frame's timestamp explicitly.
-/

namespace GD

/-- A single 3D landmark, as the (x, y, z) coordinate triple the source
manipulates. -/
structure Coord3 where
  x : ℚ
  y : ℚ
  z : ℚ
deriving DecidableEq

instance : Inhabited Coord3 := ⟨⟨0, 0, 0⟩⟩

/- Constants from `shared/config.py`. -/

/-- `PINCH_THRESHOLD_3D = 0.045` -/
def PINCH_THRESHOLD_3D : ℚ := 45 / 1000

/-- `VOLUME_MOVE_THRESHOLD = 0.025` -/
def VOLUME_MOVE_THRESHOLD : ℚ := 25 / 1000

/-- `FIST_DISTANCE_THRESHOLD = 0.1` (the literal `0.1` used at
`gestures.py:138`). -/
def FIST_DISTANCE_THRESHOLD : ℚ := 1 / 10

/-- `COOLDOWN = 0.8` -/
def COOLDOWN : ℚ := 8 / 10

/-- `GESTURE_STABILITY_FRAMES = 5` -/
def GESTURE_STABILITY_FRAMES : ℕ := 5

/-- `BUFFER_SIZE = 20` -/
def BUFFER_SIZE : ℕ := 20

/-- `SMOOTHING_WINDOW = 3` -/
def SMOOTHING_WINDOW : ℕ := 3

/-- `GestureProcessor._get_coords` (gestures.py:30-38).
The source guards with `len(lm_list) < index * 3 + 2` and then reads
`lm_list[index*3]`, `lm_list[index*3+1]`, `lm_list[index*3+2]`.
`none` models an uncaught `IndexError` on one of those reads. -/
def getCoords (lmList : List ℚ) (index : ℕ) : Option Coord3 :=
  if lmList.length < index * 3 + 2 then some ⟨0, 0, 0⟩
  else
    match lmList.get? (index * 3), lmList.get? (index * 3 + 1), lmList.get? (index * 3 + 2) with
    | some x, some y, some z => some ⟨x, y, z⟩
    | _, _, _ => none

/-- Squared 3D Euclidean distance.  `GestureProcessor._get_distance_3d`
(gestures.py:40-42) returns `sqrt` of this; every use in the source
compares the distance with a nonnegative constant, embedded below as the
equivalent comparison of `distSq` with the squared constant. -/
def distSq (p q : Coord3) : ℚ :=
  (p.x - q.x) ^ 2 + (p.y - q.y) ^ 2 + (p.z - q.z) ^ 2

/-- `GestureProcessor._detect_raw_gesture` (gestures.py:99-147).
The block of `_get_coords` reads sits in a `try/except IndexError` that
returns `None`, here a bind chain on the `Option` results; the later read
of landmark 6's z (line 140) repeats a read already performed inside the
`try` (line 109) on the same list, so it can never raise, and the
function is total. -/
def detectRawGesture (lmList : List ℚ) : Option String :=
  (getCoords lmList 4).bind fun thumbTip =>
  (getCoords lmList 8).bind fun indexTip =>
  (getCoords lmList 12).bind fun middleTip =>
  (getCoords lmList 16).bind fun ringTip =>
  (getCoords lmList 6).bind fun indexPip =>
  (getCoords lmList 10).bind fun middlePip =>
  (getCoords lmList 14).bind fun ringPip =>
  (getCoords lmList 18).bind fun pinkyPip =>
  -- dist_thumb_index_3d < PINCH_THRESHOLD_3D
  if distSq thumbTip indexTip < PINCH_THRESHOLD_3D ^ 2 then some "pinch_active"
  -- index/middle extended, ring closed, ring-tip-vs-pinky-pip proxy
  else if indexTip.y < indexPip.y ∧ middleTip.y < middlePip.y ∧
          ringTip.y > ringPip.y ∧ ringTip.y > pinkyPip.y then some "next_track_shape"
  -- fist: index/middle/ring closed, not a pinch, thumb tucked in depth
  else if indexTip.y > indexPip.y ∧ middleTip.y > middlePip.y ∧
          ringTip.y > ringPip.y ∧
          distSq thumbTip indexTip > FIST_DISTANCE_THRESHOLD ^ 2 ∧
          indexPip.z < thumbTip.z then some "play_pause_shape"
  else none

/-- `GestureProcessor._handle_volume` (gestures.py:149-166), with the
mutable `self.last_index_y` made explicit: returns the new baseline and
the emitted command. -/
def handleVolume (lastIndexY : Option ℚ) (indexTipY : ℚ) : Option ℚ × Option String :=
  match lastIndexY with
  | none => (some indexTipY, none)
  | some lastY =>
    let dy := lastY - indexTipY
    if dy > VOLUME_MOVE_THRESHOLD then (some indexTipY, some "volume_up")
    else if dy < -VOLUME_MOVE_THRESHOLD then (some indexTipY, some "volume_down")
    else (some lastY, none)

/-- `GestureProcessor.is_gesture_contextually_valid` (gestures.py:168-194),
with `self.current_stable_gesture` and the optional `data['pose']` made
explicit.  A missing nose coordinate (IndexError) is caught and yields
`True`, as in the source. -/
def isGestureContextuallyValid (currentStableGesture : Option String)
    (pose : Option (List ℚ)) (wrist : Coord3) : Bool :=
  if currentStableGesture ≠ some "play_pause_shape" then true
  else
    match pose with
    | none => true
    | some poseLm =>
      match poseLm.get? 0, poseLm.get? 1 with
      | some noseX, some noseY =>
        if |wrist.y - noseY| < 1 / 4 ∧ |wrist.x - noseX| < 1 / 4 then false else true
      | _, _ => true

/-- Append to a `collections.deque(maxlen := m)`: the oldest entries are
evicted from the left once the length would exceed `m`. -/
def pushBounded (maxlen : ℕ) (l : List α) (a : α) : List α :=
  let l' := l ++ [a]
  if maxlen < l'.length then l'.drop (l'.length - maxlen) else l'

/-- `np.mean(rows, axis=0).tolist()` for a nonempty stack of equal-length
rows (the only shape the source ever feeds it): element-wise arithmetic
mean.  The width is taken from the first row; ragged stacks raise in the
source and are outside every use below. -/
def meanList (rows : List (List ℚ)) : List ℚ :=
  match rows with
  | [] => []
  | r0 :: _ =>
    (List.range r0.length).map fun i =>
      (rows.map fun r => r.getD i 0).sum / (rows.length : ℚ)

/-- `np.zeros(n).tolist()` -/
def zeros (n : ℕ) : List ℚ := List.replicate n 0

/-- `np.array(l).reshape(-1, 3)` for a list whose length is a multiple of
three (the source raises otherwise; callers below gate on divisibility
exactly where the source's `try/except` catches that failure). -/
def chunk3 : List ℚ → List Coord3
  | x :: y :: z :: rest => ⟨x, y, z⟩ :: chunk3 rest
  | _ => []

/-- `.flatten().tolist()` of a point list. -/
def flatten3 : List Coord3 → List ℚ
  | [] => []
  | p :: rest => p.x :: p.y :: p.z :: flatten3 rest

/-- Component-wise point difference. -/
def csub (p q : Coord3) : Coord3 := ⟨p.x - q.x, p.y - q.y, p.z - q.z⟩

/-- Division of a point by a scalar. -/
def cdiv (p : Coord3) (d : ℚ) : Coord3 := ⟨p.x / d, p.y / d, p.z / d⟩

/-- Squared Euclidean norm of a point. -/
def sqNorm (p : Coord3) : ℚ := p.x ^ 2 + p.y ^ 2 + p.z ^ 2

/-- `GestureProcessor._normalize_features` (gestures.py:56-97).
`s` stands for the library square root (see the file header): the source's
`max_dist = np.max(np.linalg.norm(rel_hands, axis=1))` is `s` of the
maximum squared norm (the real square root is monotone, so the max of the
roots is the root of the max), and likewise for the shoulder distance.
A reshape failure (length not a multiple of 3) is the `except` branch of
the source and yields the zero half. -/
def normalizeFeatures (s : ℚ → ℚ) (handsList poseList : List ℚ) : List ℚ :=
  let handVector :=
    if handsList.length < 21 * 3 then zeros (21 * 3)
    else if ¬ (3 ∣ handsList.length) then zeros (21 * 3)
    else
      let hands := chunk3 handsList
      let wrist := hands.headI
      let relHands := hands.map fun p => csub p wrist
      let maxDist := s ((relHands.map sqNorm).foldr max 0)
      let relHands' := if maxDist > 0 then relHands.map (fun p => cdiv p maxDist) else relHands
      flatten3 relHands'
  let poseVector :=
    if poseList.length < 33 * 3 then zeros (33 * 3)
    else if ¬ (3 ∣ poseList.length) then zeros (33 * 3)
    else
      let pose := chunk3 poseList
      let shoulderLeft := pose.getD 11 default
      let shoulderRight := pose.getD 12 default
      let midpoint : Coord3 := ⟨(shoulderLeft.x + shoulderRight.x) / 2,
                                (shoulderLeft.y + shoulderRight.y) / 2,
                                (shoulderLeft.z + shoulderRight.z) / 2⟩
      let relPose := pose.map fun p => csub p midpoint
      let shoulderDist := s (sqNorm (csub shoulderLeft shoulderRight))
      let relPose' := if shoulderDist > 0 then relPose.map (fun p => cdiv p shoulderDist) else relPose
      flatten3 relPose'
  handVector ++ poseVector

/-- Does `needle` occur as a contiguous subsequence of `hay`?  Embeds
Python's `needle in string`. -/
def containsSeq (needle hay : List Char) : Bool :=
  hay.tails.any fun t => needle.isPrefixOf t

/-- Python `str.replace(pat, rep)` with a nonempty pattern: replace every
non-overlapping occurrence, scanning left to right.  The fuel argument
only makes the recursion structural; at every call below it equals the
remaining string length, and every step consumes at least one character
per unit of fuel, so the fuel-exhaustion branch is unreachable. -/
def replaceAllAux (pat rep : List Char) : ℕ → List Char → List Char
  | _, [] => []
  | 0, s => s
  | fuel + 1, c :: rest =>
    if pat.isPrefixOf (c :: rest) ∧ 0 < pat.length then
      rep ++ replaceAllAux pat rep fuel (rest.drop (pat.length - 1))
    else
      c :: replaceAllAux pat rep fuel rest

/-- Python `str.replace(pat, rep)`. -/
def replaceAll (pat rep s : List Char) : List Char :=
  replaceAllAux pat rep s.length s

/-- `ml_gesture.replace("_INTENCIONAL", "")` (gestures.py:265). -/
def cleanName (g : String) : String := ⟨replaceAll "_INTENCIONAL".data [] g.data⟩

/-- The negative-class filter of gestures.py:270: substring match against
the three configured markers. -/
def isNegativeLabel (g : String) : Bool :=
  containsSeq "NO_ACTION".data g.data || containsSeq "falso_positivo".data g.data ||
    containsSeq "no_accion".data g.data

/-- One incoming frame: the parsed message `data`, with its optional
`hands` (21×3 flat floats) and `pose` (33×3 flat floats) fields. -/
structure Frame where
  hands : Option (List ℚ)
  pose : Option (List ℚ)

/-- Session configuration and collaborators of `GestureProcessor`.
`model` is `GestureModel.predict` (an external collaborator).
`inferenceInterval`, `gestureThresholds` and `modelConfidenceThreshold`
are imported by gestures.py from `shared.config` but are absent from the
`shared/config.py` in the repository snapshot; modelled from the spec:
an inference cadence in frames, a partial map from gesture label to
confidence threshold, and the global default threshold. -/
structure Params where
  model : List (List ℚ) → Option String × ℚ
  inferenceInterval : ℕ
  gestureThresholds : String → Option ℚ
  modelConfidenceThreshold : ℚ
  sqrtFn : ℚ → ℚ

/-- The mutable per-session state of `GestureProcessor` (gestures.py:18-28). -/
structure EngineState where
  last_action_time : ℚ
  last_index_y : Option ℚ
  current_stable_gesture : Option String
  gesture_count : ℕ
  frame_counter : ℕ
  history : List (List ℚ)
  landmark_buffer : List (List ℚ)

/-- `GestureProcessor.__init__`. -/
def initState : EngineState :=
  { last_action_time := 0, last_index_y := none, current_stable_gesture := none,
    gesture_count := 0, frame_counter := 0, history := [], landmark_buffer := [] }

/-- Result of one `process_landmarks` call: the updated state, the
returned command, and whether `self.model.predict` was invoked
(instrumentation for the claims about inference cadence). -/
structure StepResult where
  state : EngineState
  emission : Option String
  modelCalled : Bool

/-- The updated smoothing history for a frame: `_smooth_landmarks` appends
only when the raw hand list is nonempty (gestures.py:207-211). -/
def smoothedHistory (st : EngineState) (f : Frame) : List (List ℚ) :=
  let raw := f.hands.getD []
  if raw = [] then st.history else pushBounded SMOOTHING_WINDOW st.history raw

/-- The smoothed hand list used by the rest of `process_landmarks`:
`_smooth_landmarks(raw)` when a hand is present, `[]` otherwise. -/
def smoothedOf (st : EngineState) (f : Frame) : List ℚ :=
  let raw := f.hands.getD []
  if raw = [] then [] else meanList (pushBounded SMOOTHING_WINDOW st.history raw)

/-- The ML acceptance decision of gestures.py:260-279 applied to one
prediction: threshold resolution (raw label lookup with the global
default, then the suffix-cleaned lookup on top), strict-confidence test,
negative-class filter, cleaned emission name. -/
def mlDecision (p : Params) (g : Option String) (confidence : ℚ) : Option String :=
  match g with
  | none => none
  | some gname =>
    let threshold := (p.gestureThresholds gname).getD p.modelConfidenceThreshold
    let threshold' := (p.gestureThresholds (cleanName gname)).getD threshold
    if confidence > threshold' then
      if isNegativeLabel gname then none else some (cleanName gname)
    else none

/-- The resolved confidence threshold of gestures.py:262-266 on its own. -/
def resolveThreshold (p : Params) (g : String) : ℚ :=
  (p.gestureThresholds (cleanName g)).getD ((p.gestureThresholds g).getD p.modelConfidenceThreshold)

/-- Step 5 of `process_landmarks` (gestures.py:254-281): advance the
frame counter, and run the model only when the buffer is full and the
counter hits the inference cadence. -/
def mlStep (p : Params) (st : EngineState) (now : ℚ) : StepResult :=
  let st' := { st with frame_counter := st.frame_counter + 1 }
  if st'.landmark_buffer.length = BUFFER_SIZE ∧ st'.frame_counter % p.inferenceInterval = 0 then
    let pr := p.model st'.landmark_buffer
    match mlDecision p pr.1 pr.2 with
    | some c => ⟨{ st' with last_action_time := now }, some c, true⟩
    | none => ⟨st', none, true⟩
  else ⟨st', none, false⟩

/-- `GestureProcessor.process_landmarks` (gestures.py:196-281).
Order of effects follows the source: smoothing and buffering happen
before the cooldown gate; the pinch/volume path runs next (a failed
coordinate read there is caught by `except IndexError: pass` and falls
through to the ML step); the non-pinch branch clears the volume baseline;
the pinch branch clears the stability fields and returns. -/
def process (p : Params) (st : EngineState) (f : Frame) (now : ℚ) : StepResult :=
  let history' := smoothedHistory st f
  let smoothed := smoothedOf st f
  let buffer' := pushBounded BUFFER_SIZE st.landmark_buffer
    (normalizeFeatures p.sqrtFn smoothed (f.pose.getD []))
  let st1 := { st with history := history', landmark_buffer := buffer' }
  if now - st.last_action_time < COOLDOWN then ⟨st1, none, false⟩
  else
    match getCoords smoothed 8, getCoords smoothed 4 with
    | some indexTip, some thumbTip =>
      if distSq thumbTip indexTip < PINCH_THRESHOLD_3D ^ 2 then
        let st2 := { st1 with current_stable_gesture := none, gesture_count := 0 }
        let hv := handleVolume st2.last_index_y indexTip.y
        match hv.2 with
        | some c => ⟨{ st2 with last_index_y := hv.1, last_action_time := now }, some c, false⟩
        | none => ⟨{ st2 with last_index_y := hv.1 }, none, false⟩
      else mlStep p { st1 with last_index_y := none } now
    | _, _ => mlStep p st1 now

/-- Process a list of (frame, timestamp) pairs in order, collecting the
per-frame emissions. -/
def run (p : Params) : EngineState → List (Frame × ℚ) → EngineState × List (Option String)
  | st, [] => (st, [])
  | st, (f, t) :: rest =>
    let r := process p st f t
    let rec' := run p r.state rest
    (rec'.1, r.emission :: rec'.2)

/-- The timestamps of the frames on which a command was emitted. -/
def emitTimes (p : Params) : EngineState → List (Frame × ℚ) → List ℚ
  | _, [] => []
  | st, (f, t) :: rest =>
    let r := process p st f t
    (if r.emission.isSome then [t] else []) ++ emitTimes p r.state rest

/-- A concrete 21-point hand encoding a fist: index, middle and ring tips
below (larger y than) their PIP joints, thumb tip tucked behind the index
knuckle in depth (knuckle z `1/10` < thumb-tip z `1/2`), thumb-index
distance `sqrt(73/400) ≈ 0.427 > 0.1`, and not a pinch. -/
def fistFrame : List ℚ :=
  [1/2, 9/10, 0,
   1/2, 1/2, 1/2,
   1/2, 1/2, 1/2,
   1/2, 1/2, 1/2,
   3/10, 3/5, 1/2,
   1/2, 1/2, 1/2,
   9/20, 1/2, 1/10,
   1/2, 1/2, 1/2,
   9/20, 3/5, 1/10,
   1/2, 1/2, 1/2,
   1/2, 1/2, 1/10,
   1/2, 1/2, 1/2,
   1/2, 13/20, 1/10,
   1/2, 1/2, 1/2,
   11/20, 1/2, 1/10,
   1/2, 1/2, 1/2,
   11/20, 13/20, 1/10,
   1/2, 1/2, 1/2,
   3/5, 1/2, 1/10,
   1/2, 1/2, 1/2,
   1/2, 1/2, 1/2]

/-- A concrete 21-point hand holding a pinch: thumb tip and index tip
coincide at `(1/2, 1/2, 1/5)` (3D distance 0 < 0.045), index-tip height
`y = 1/2`. -/
def pinchFrame : List ℚ :=
  [1/2, 1/2, 1/2,
   1/2, 1/2, 1/2,
   1/2, 1/2, 1/2,
   1/2, 1/2, 1/2,
   1/2, 1/2, 1/5,
   1/2, 1/2, 1/2,
   1/2, 1/2, 1/2,
   1/2, 1/2, 1/2,
   1/2, 1/2, 1/5,
   1/2, 1/2, 1/2,
   1/2, 1/2, 1/2,
   1/2, 1/2, 1/2,
   1/2, 1/2, 1/2,
   1/2, 1/2, 1/2,
   1/2, 1/2, 1/2,
   1/2, 1/2, 1/2,
   1/2, 1/2, 1/2,
   1/2, 1/2, 1/2,
   1/2, 1/2, 1/2,
   1/2, 1/2, 1/2,
   1/2, 1/2, 1/2]

/-- The buffer contents after the unconditional append of step 2 of
`process_landmarks` (gestures.py:215-219). -/
def bufferAfter (p : Params) (st : EngineState) (f : Frame) : List (List ℚ) :=
  pushBounded BUFFER_SIZE st.landmark_buffer
    (normalizeFeatures p.sqrtFn (smoothedOf st f) (f.pose.getD []))

/-- A frame carrying the fist hand and no pose data. -/
def fistF : Frame := ⟨some fistFrame, none⟩

/-- A frame carrying the pinch hand and no pose data. -/
def pinchF : Frame := ⟨some pinchFrame, none⟩

/-- A frame with no `hands` field and no `pose` field. -/
def noHandsF : Frame := ⟨none, none⟩

/-- A concrete parameter set used to exercise the engine at specific
inputs: a model that always returns `(none, 0)`, inference every frame,
no per-gesture threshold overrides, default confidence `1/2`, and the
identity in place of the square root (no exercised branch depends on its
values). -/
def pW : Params := ⟨fun _ => (none, 0), 1, fun _ => none, 1/2, id⟩

/-- Session state whose landmark buffer is one vector short of full, so
the next processed non-pinch hand frame reaches the inference gate. -/
def stM : EngineState := { initState with landmark_buffer := List.replicate 19 (zeros 162) }

/-- Session state carrying a stale volume baseline. -/
def stB : EngineState := { initState with last_index_y := some 1 }

example : fistFrame.length = 63 := by rfl
example : pinchFrame.length = 63 := by rfl
example : getCoords fistFrame 4 = some ⟨3/10, 3/5, 1/2⟩ := by rfl
example : getCoords fistFrame 8 = some ⟨9/20, 3/5, 1/10⟩ := by rfl
lemma detectRawGesture_fistFrame : detectRawGesture fistFrame = some "play_pause_shape" := by
  have h4 : getCoords fistFrame 4 = some ⟨3/10, 3/5, 1/2⟩ := rfl
  have h8 : getCoords fistFrame 8 = some ⟨9/20, 3/5, 1/10⟩ := rfl
  have h12 : getCoords fistFrame 12 = some ⟨1/2, 13/20, 1/10⟩ := rfl
  have h16 : getCoords fistFrame 16 = some ⟨11/20, 13/20, 1/10⟩ := rfl
  have h6 : getCoords fistFrame 6 = some ⟨9/20, 1/2, 1/10⟩ := rfl
  have h10 : getCoords fistFrame 10 = some ⟨1/2, 1/2, 1/10⟩ := rfl
  have h14 : getCoords fistFrame 14 = some ⟨11/20, 1/2, 1/10⟩ := rfl
  have h18 : getCoords fistFrame 18 = some ⟨3/5, 1/2, 1/10⟩ := rfl
  rw [detectRawGesture, h4, h8, h12, h16, h6, h10, h14, h18]
  norm_num [distSq, PINCH_THRESHOLD_3D, FIST_DISTANCE_THRESHOLD]
example : detectRawGesture [] = some "pinch_active" := by
  rw [detectRawGesture]
  norm_num [getCoords, distSq, PINCH_THRESHOLD_3D]
example : getCoords [(0 : ℚ), 0] 0 = none := by rfl
example : getCoords [(0 : ℚ)] 0 = some ⟨0, 0, 0⟩ := by rfl
example : pushBounded 3 [fistFrame, fistFrame, fistFrame] fistFrame = [fistFrame, fistFrame, fistFrame] := by rfl
example : cleanName "play_pause_INTENCIONAL" = "play_pause" := by decide
example : isNegativeLabel "no_accion_x" = true := by decide
example : isNegativeLabel "play_pause" = false := by decide
example : handleVolume (some (1/2)) 0 = (some 0, some "volume_up") := by
  rw [handleVolume]
  norm_num [VOLUME_MOVE_THRESHOLD]
example : handleVolume none (1/2) = (some (1/2), none) := by rfl

/-! ### Generic helper lemmas about the embedded data structures -/

lemma pushBounded_length (m : ℕ) (l : List α) (a : α) :
    (pushBounded m l a).length = min (l.length + 1) m := by
  unfold pushBounded
  dsimp only
  split
  next h =>
    simp only [List.length_append, List.length_cons, List.length_nil] at h
    simp only [List.length_drop, List.length_append, List.length_cons, List.length_nil]
    omega
  next h =>
    simp only [List.length_append, List.length_cons, List.length_nil] at h ⊢
    omega

lemma pushBounded_replicate (m k : ℕ) (a : α) :
    pushBounded m (List.replicate k a) a = List.replicate (min (k + 1) m) a := by
  unfold pushBounded
  dsimp only
  have h1 : List.replicate k a ++ [a] = List.replicate (k + 1) a :=
    (List.replicate_succ' k a).symm
  simp only [h1, List.length_replicate]
  split
  · rw [List.drop_replicate]
    congr 1
    omega
  · congr 1
    omega

lemma map_getD_range : ∀ l : List ℚ, (List.range l.length).map (fun i => l.getD i 0) = l
  | [] => rfl
  | a :: t => by
    rw [List.length_cons, List.range_succ_eq_map, List.map_cons, List.map_map]
    have he : ((fun i => (a :: t).getD i 0) ∘ Nat.succ) = fun i => t.getD i 0 := by
      funext i
      simp [List.getD_cons_succ]
    rw [List.getD_cons_zero, he, map_getD_range t]

lemma meanList_replicate (k : ℕ) (hk : k ≠ 0) (l : List ℚ) :
    meanList (List.replicate k l) = l := by
  obtain ⟨k', rfl⟩ := Nat.exists_eq_succ_of_ne_zero hk
  have hrep : List.replicate (k' + 1) l = l :: List.replicate k' l := List.replicate_succ l k'
  rw [hrep, meanList, ← hrep]
  have hcast : ((k' : ℚ) + 1) ≠ 0 := by positivity
  have hmap : ∀ i : ℕ, ((List.replicate (k' + 1) l).map fun r => r.getD i 0).sum /
      ((List.replicate (k' + 1) l).length : ℚ) = l.getD i 0 := by
    intro i
    rw [List.map_replicate, List.sum_replicate, List.length_replicate, nsmul_eq_mul]
    push_cast
    field_simp
  simp only [hmap]
  exact map_getD_range l

lemma chunk3_length : ∀ l : List ℚ, (chunk3 l).length = l.length / 3
  | [] => by simp [chunk3]
  | [x] => by simp [chunk3]
  | [x, y] => by simp [chunk3]
  | x :: y :: z :: rest => by
    simp only [chunk3, List.length_cons]
    rw [chunk3_length rest]
    omega

lemma flatten3_length : ∀ l : List Coord3, (flatten3 l).length = 3 * l.length
  | [] => rfl
  | p :: rest => by
    simp only [flatten3, List.length_cons, flatten3_length rest]
    ring

/-- The length of the output of `_normalize_features`: 63 for the hand
half unless the hand list is an oversized multiple of three (which the
source passes through whole), and likewise 99 for the pose half. -/
lemma normalizeFeatures_length (s : ℚ → ℚ) (hands pose : List ℚ) :
    (normalizeFeatures s hands pose).length =
      (if hands.length < 63 ∨ ¬ 3 ∣ hands.length then 63 else hands.length) +
      (if pose.length < 99 ∨ ¬ 3 ∣ pose.length then 99 else pose.length) := by
  unfold normalizeFeatures
  rw [List.length_append]
  congr 1
  · by_cases h1 : hands.length < 21 * 3
    · simp only [if_pos h1, zeros, List.length_replicate]
      rw [if_pos (Or.inl (by omega))]
    · rw [if_neg h1]
      by_cases h2 : (3 : ℕ) ∣ hands.length
      · rw [if_neg (by omega), if_neg (by push_neg; exact ⟨by omega, h2⟩)]
        dsimp only
        split
        · rw [flatten3_length, List.length_map, List.length_map, chunk3_length]
          omega
        · rw [flatten3_length, List.length_map, chunk3_length]
          omega
      · rw [if_pos h2, zeros, List.length_replicate, if_pos (Or.inr h2)]
  · by_cases h1 : pose.length < 33 * 3
    · simp only [if_pos h1, zeros, List.length_replicate]
      rw [if_pos (Or.inl (by omega))]
    · rw [if_neg h1]
      by_cases h2 : (3 : ℕ) ∣ pose.length
      · rw [if_neg (by omega), if_neg (by push_neg; exact ⟨by omega, h2⟩)]
        dsimp only
        split
        · rw [flatten3_length, List.length_map, List.length_map, chunk3_length]
          omega
        · rw [flatten3_length, List.length_map, chunk3_length]
          omega
      · rw [if_pos h2, zeros, List.length_replicate, if_pos (Or.inr h2)]

/-- With the history holding `k` copies of a nonempty frame and that same
frame arriving, smoothing is the identity: the mean of identical rows is
the row. -/
lemma smoothedOf_replicate (st : EngineState) (fr : List ℚ) (pose : Option (List ℚ))
    (k : ℕ) (hfr : fr ≠ []) (hst : st.history = List.replicate k fr) :
    smoothedOf st ⟨some fr, pose⟩ = fr := by
  unfold smoothedOf
  simp only [Option.getD_some]
  rw [if_neg hfr, hst, pushBounded_replicate, meanList_replicate]
  simp only [SMOOTHING_WINDOW]
  omega

lemma smoothedHistory_replicate (st : EngineState) (fr : List ℚ) (pose : Option (List ℚ))
    (k : ℕ) (hfr : fr ≠ []) (hst : st.history = List.replicate k fr) :
    smoothedHistory st ⟨some fr, pose⟩ = List.replicate (min (k + 1) SMOOTHING_WINDOW) fr := by
  unfold smoothedHistory
  simp only [Option.getD_some]
  rw [if_neg hfr, hst, pushBounded_replicate]

lemma smoothedOf_noHands (st : EngineState) (pose : Option (List ℚ)) :
    smoothedOf st ⟨none, pose⟩ = [] := rfl

/-! ### Branch lemmas for `process` -/

lemma process_cooldown (p : Params) (st : EngineState) (f : Frame) (now : ℚ)
    (h : now - st.last_action_time < COOLDOWN) :
    process p st f now =
      ⟨{ st with history := smoothedHistory st f, landmark_buffer := bufferAfter p st f },
        none, false⟩ := by
  unfold process bufferAfter
  dsimp only
  rw [if_pos h]

lemma process_pinch_nocmd (p : Params) (st : EngineState) (f : Frame) (now : ℚ)
    (it tt : Coord3) (nl : Option ℚ)
    (hc : ¬ now - st.last_action_time < COOLDOWN)
    (h8 : getCoords (smoothedOf st f) 8 = some it)
    (h4 : getCoords (smoothedOf st f) 4 = some tt)
    (hp : distSq tt it < PINCH_THRESHOLD_3D ^ 2)
    (hv : handleVolume st.last_index_y it.y = (nl, none)) :
    process p st f now =
      ⟨{ st with
          history := smoothedHistory st f
          landmark_buffer := bufferAfter p st f
          current_stable_gesture := none
          gesture_count := 0
          last_index_y := nl },
        none, false⟩ := by
  unfold process bufferAfter
  dsimp only
  rw [if_neg hc, h8, h4]
  dsimp only
  rw [if_pos hp, hv]

lemma process_pinch_cmd (p : Params) (st : EngineState) (f : Frame) (now : ℚ)
    (it tt : Coord3) (nl : Option ℚ) (c : String)
    (hc : ¬ now - st.last_action_time < COOLDOWN)
    (h8 : getCoords (smoothedOf st f) 8 = some it)
    (h4 : getCoords (smoothedOf st f) 4 = some tt)
    (hp : distSq tt it < PINCH_THRESHOLD_3D ^ 2)
    (hv : handleVolume st.last_index_y it.y = (nl, some c)) :
    process p st f now =
      ⟨{ st with
          history := smoothedHistory st f
          landmark_buffer := bufferAfter p st f
          current_stable_gesture := none
          gesture_count := 0
          last_index_y := nl
          last_action_time := now },
        some c, false⟩ := by
  unfold process bufferAfter
  dsimp only
  rw [if_neg hc, h8, h4]
  dsimp only
  rw [if_pos hp, hv]

lemma process_nonpinch (p : Params) (st : EngineState) (f : Frame) (now : ℚ)
    (it tt : Coord3)
    (hc : ¬ now - st.last_action_time < COOLDOWN)
    (h8 : getCoords (smoothedOf st f) 8 = some it)
    (h4 : getCoords (smoothedOf st f) 4 = some tt)
    (hp : ¬ distSq tt it < PINCH_THRESHOLD_3D ^ 2) :
    process p st f now =
      mlStep p
        { st with
          history := smoothedHistory st f
          landmark_buffer := bufferAfter p st f
          last_index_y := none } now := by
  unfold process bufferAfter
  dsimp only
  rw [if_neg hc, h8, h4]
  dsimp only
  rw [if_neg hp]

lemma mlStep_not_ready (p : Params) (st : EngineState) (now : ℚ)
    (h : ¬ (st.landmark_buffer.length = BUFFER_SIZE ∧
      (st.frame_counter + 1) % p.inferenceInterval = 0)) :
    mlStep p st now = ⟨{ st with frame_counter := st.frame_counter + 1 }, none, false⟩ := by
  unfold mlStep
  dsimp only
  rw [if_neg h]

/-- Every branch of `process_landmarks` either emits nothing and leaves
`last_action_time` untouched, or emits a command, stamps
`last_action_time := now`, and was only reachable with the cooldown
elapsed. -/
lemma process_emission_cases (p : Params) (st : EngineState) (f : Frame) (now : ℚ) :
    ((process p st f now).emission = none ∧
      (process p st f now).state.last_action_time = st.last_action_time) ∨
    ((process p st f now).emission ≠ none ∧
      (process p st f now).state.last_action_time = now ∧
      st.last_action_time + COOLDOWN ≤ now) := by
  unfold process mlStep
  dsimp only
  repeat' split
  all_goals
    first
      | exact Or.inl ⟨rfl, rfl⟩
      | exact Or.inr ⟨by simp, rfl, by
          linarith [not_lt.mp ‹¬ now - st.last_action_time < COOLDOWN›]⟩

/-- Exactly one normalized feature vector is appended to the landmark
buffer by every call, in every branch, cooldown included. -/
lemma process_buffer (p : Params) (st : EngineState) (f : Frame) (now : ℚ) :
    (process p st f now).state.landmark_buffer = bufferAfter p st f := by
  unfold process mlStep bufferAfter
  dsimp only
  repeat' split
  all_goals rfl

/-- The frame counter advances only when the step reaches the ML stage. -/
lemma process_modelCalled_props (p : Params) (st : EngineState) (f : Frame) (now : ℚ) :
    (process p st f now).modelCalled = true →
      (process p st f now).state.landmark_buffer.length = BUFFER_SIZE ∧
      (process p st f now).state.frame_counter % p.inferenceInterval = 0 ∧
      (process p st f now).emission =
        mlDecision p (p.model (process p st f now).state.landmark_buffer).1
          (p.model (process p st f now).state.landmark_buffer).2 := by
  unfold process mlStep
  dsimp only
  repeat' split
  all_goals intro h
  all_goals first
    | exact (Bool.false_ne_true h).elim
    | exact ⟨‹_ ∧ _›.1, ‹_ ∧ _›.2, (‹mlDecision _ _ _ = _›).symm⟩

/-- Every emission time in a run is at least one cooldown after the
`last_action_time` the run started from. -/
lemma emitTimes_lower_bound (p : Params) :
    ∀ (fts : List (Frame × ℚ)) (st : EngineState) (x : ℚ),
      x ∈ emitTimes p st fts → st.last_action_time + COOLDOWN ≤ x := by
  intro fts
  induction fts with
  | nil =>
    intro st x hx
    simp [emitTimes] at hx
  | cons ft rest ih =>
    intro st x hx
    obtain ⟨f, t⟩ := ft
    have hC : (0 : ℚ) ≤ COOLDOWN := by norm_num [COOLDOWN]
    rw [emitTimes] at hx
    by_cases hs : (process p st f t).emission.isSome = true
    · rw [if_pos hs] at hx
      rcases process_emission_cases p st f t with ⟨he, _⟩ | ⟨_, hl, hcool⟩
      · rw [he] at hs
        simp at hs
      · rcases List.mem_append.mp hx with hhead | htail
        · have hx' : x = t := by simpa using hhead
          rw [hx']
          exact hcool
        · have hrec := ih (process p st f t).state x htail
          rw [hl] at hrec
          linarith
    · rw [if_neg hs] at hx
      simp only [List.nil_append] at hx
      rcases process_emission_cases p st f t with ⟨_, hl⟩ | ⟨he, _, _⟩
      · have hrec := ih (process p st f t).state x hx
        rwa [hl] at hrec
      · exact absurd (Option.isSome_iff_ne_none.mpr he) hs

/-- The emission times of any run are pairwise separated by at least the
cooldown. -/
lemma emitTimes_pairwise (p : Params) :
    ∀ (fts : List (Frame × ℚ)) (st : EngineState),
      (emitTimes p st fts).Pairwise fun a b => a + COOLDOWN ≤ b := by
  intro fts
  induction fts with
  | nil =>
    intro st
    simp [emitTimes]
  | cons ft rest ih =>
    intro st
    obtain ⟨f, t⟩ := ft
    rw [emitTimes]
    by_cases hs : (process p st f t).emission.isSome = true
    · rw [if_pos hs]
      simp only [List.singleton_append]
      refine List.Pairwise.cons ?_ (ih _)
      intro x hx
      have hb := emitTimes_lower_bound p rest (process p st f t).state x hx
      rcases process_emission_cases p st f t with ⟨he, _⟩ | ⟨_, hl, _⟩
      · rw [he] at hs
        simp at hs
      · rwa [hl] at hb
    · rw [if_neg hs]
      simp only [List.nil_append]
      exact ih _

lemma process_pinchlike (p : Params) (st : EngineState) (f : Frame) (now : ℚ)
    (it tt : Coord3)
    (h8 : getCoords (smoothedOf st f) 8 = some it)
    (h4 : getCoords (smoothedOf st f) 4 = some tt)
    (hp : distSq tt it < PINCH_THRESHOLD_3D ^ 2) :
    (process p st f now).modelCalled = false ∧
    (process p st f now).state.frame_counter = st.frame_counter := by
  unfold process
  dsimp only
  split
  · exact ⟨rfl, rfl⟩
  · rw [h8, h4]
    dsimp only
    rw [if_pos hp]
    split <;> exact ⟨rfl, rfl⟩

/-- Feeding any number of fist frames (at times past the cooldown, with a
compatible starting state and a buffer that stays short of full) produces
no emission at all: the current `process_landmarks` has no stability or
context-gate path, so a fist can only ever surface through the ML branch,
which a non-full buffer never reaches. -/
lemma run_fist_aux (p : Params) :
    ∀ (ts : List ℚ) (st : EngineState),
      st.last_action_time = 0 →
      (∀ t ∈ ts, 1 ≤ t) →
      (∃ k, st.history = List.replicate k fistFrame) →
      st.landmark_buffer.length + ts.length ≤ 19 →
      (run p st (ts.map fun t => (fistF, t))).2 = List.replicate ts.length none := by
  intro ts
  induction ts with
  | nil =>
    intro st _ _ _ _
    rfl
  | cons t rest ih =>
    rintro st hlast hts ⟨k, hhist⟩ hbuf
    have hfr : fistFrame ≠ [] := by simp [fistFrame]
    have hsm : smoothedOf st fistF = fistFrame :=
      smoothedOf_replicate st fistFrame none k hfr hhist
    have h8 : getCoords (smoothedOf st fistF) 8 = some ⟨9/20, 3/5, 1/10⟩ := by
      rw [hsm]; rfl
    have h4 : getCoords (smoothedOf st fistF) 4 = some ⟨3/10, 3/5, 1/2⟩ := by
      rw [hsm]; rfl
    have hc : ¬ t - st.last_action_time < COOLDOWN := by
      rw [hlast]
      have h1 : 1 ≤ t := hts t (by simp)
      rw [not_lt, COOLDOWN]
      linarith
    have hp : ¬ distSq ⟨3/10, 3/5, 1/2⟩ ⟨9/20, 3/5, 1/10⟩ < PINCH_THRESHOLD_3D ^ 2 := by
      norm_num [distSq, PINCH_THRESHOLD_3D]
    have hblen : (bufferAfter p st fistF).length = st.landmark_buffer.length + 1 := by
      rw [bufferAfter, pushBounded_length, BUFFER_SIZE]
      simp only [List.length_cons] at hbuf
      omega
    have hnr : ¬ ((bufferAfter p st fistF).length = BUFFER_SIZE ∧
        (st.frame_counter + 1) % p.inferenceInterval = 0) := by
      rintro ⟨hlen, -⟩
      rw [hblen, BUFFER_SIZE] at hlen
      simp only [List.length_cons] at hbuf
      omega
    rw [List.map_cons, run,
      process_nonpinch p st fistF t ⟨9/20, 3/5, 1/10⟩ ⟨3/10, 3/5, 1/2⟩ hc h8 h4 hp,
      mlStep_not_ready p _ t hnr]
    dsimp only
    rw [List.length_cons, List.replicate_succ]
    refine congrArg (List.cons none) ?_
    refine ih _ hlast (fun t' ht' => hts t' (by simp [ht'])) ?_ ?_
    · exact ⟨min (k + 1) SMOOTHING_WINDOW,
        smoothedHistory_replicate st fistFrame none k hfr hhist⟩
    · show (bufferAfter p st fistF).length + rest.length ≤ 19
      rw [hblen]
      simp only [List.length_cons] at hbuf
      omega

/-! ### The claims -/

/-- Claim C1 (code bug): with no prior emission and no pose data, five
identical frames whose hand encodes a fist — a shape the repository's own
classifier maps to `play_pause_shape` — produce no emission at all, on any
frame and for every model, inference interval, thresholds and square
root: `process_landmarks` never invokes the heuristic-shape / stability /
context-gate path its docstring promises, so no `play_pause` is ever
emitted. -/
theorem c1_five_fist_frames_emit_nothing (p : Params) :
    (run p initState
      [(fistF, 100), (fistF, 101), (fistF, 102), (fistF, 103), (fistF, 104)]).2 =
      [none, none, none, none, none] ∧
    detectRawGesture fistFrame = some "play_pause_shape" := by
  constructor
  · have hts : ∀ t ∈ ([100, 101, 102, 103, 104] : List ℚ), 1 ≤ t := by
      intro t ht
      fin_cases ht <;> norm_num
    have hbuf : initState.landmark_buffer.length +
        ([100, 101, 102, 103, 104] : List ℚ).length ≤ 19 := by
      simp [initState]
    have h := run_fist_aux p [100, 101, 102, 103, 104] initState rfl hts ⟨0, rfl⟩ hbuf
    have e1 : (([100, 101, 102, 103, 104] : List ℚ).map fun t => (fistF, t)) =
        [(fistF, 100), (fistF, 101), (fistF, 102), (fistF, 103), (fistF, 104)] := rfl
    have e2 : List.replicate ([100, 101, 102, 103, 104] : List ℚ).length
        (none : Option String) = [none, none, none, none, none] := rfl
    rw [e1, e2] at h
    exact h
  · exact detectRawGesture_fistFrame

/-- Claim C2 (counterexample): the empty hand vector does not fail closed
to `NONE`; every landmark read falls back to the `(0,0,0)` sentinel, the
thumb-index distance is `0 < 0.045`, and the classifier returns
`pinch_active`. -/
theorem c2_counterexample_empty_is_pinch :
    detectRawGesture [] = some "pinch_active" := by
  rw [detectRawGesture]
  norm_num [getCoords, distSq, PINCH_THRESHOLD_3D]

/-- Claim C2 (amended): for every input hand vector with fewer than 14
values — including the empty vector — the heuristic shape classifier
returns `PINCH_ACTIVE`, not `NONE`: there is no fail-closed length check,
and the zero sentinels for the missing thumb and index tips make the
thumb-index distance zero. -/
theorem c2_short_vectors_classify_as_pinch (l : List ℚ) (h : l.length < 14) :
    detectRawGesture l = some "pinch_active" := by
  have hc : ∀ i : ℕ, 4 ≤ i → getCoords l i = some ⟨0, 0, 0⟩ := by
    intro i hi
    unfold getCoords
    rw [if_pos (by omega)]
  rw [detectRawGesture, hc 4 (by norm_num), hc 8 (by norm_num), hc 12 (by norm_num),
    hc 16 (by norm_num), hc 6 (by norm_num), hc 10 (by norm_num), hc 14 (by norm_num),
    hc 18 (by norm_num)]
  simp only [Option.some_bind]
  rw [if_pos (by norm_num [distSq, PINCH_THRESHOLD_3D])]

/-- Witness for the amended C2 at the one-element vector. -/
theorem c2_short_vectors_witness :
    ([(0 : ℚ)] : List ℚ).length < 14 ∧ detectRawGesture [(0 : ℚ)] = some "pinch_active" :=
  ⟨by norm_num, c2_short_vectors_classify_as_pinch [(0 : ℚ)] (by norm_num)⟩

/-- Claim C3 (code bug): a 66-value hand list (22 points — oversized but a
multiple of three) with no pose is passed through `reshape` whole, so
`_normalize_features` returns 66 + 99 = 165 floats, not the 162 its
docstring and the spec promise. -/
theorem c3_oversized_hand_list_gives_165_features :
    (normalizeFeatures id (List.replicate 66 0) []).length = 165 := by
  rw [normalizeFeatures_length]
  norm_num [List.length_replicate]

/-- Claim C4 (code bug): a frame without hands is treated as a pinch at
the origin (all sentinel coordinates, thumb-index distance 0), so after a
pinch frame at index height `1/2`, the hands-absent frame emits
`volume_up` and moves the baseline to `0` — instead of emitting nothing
and clearing the baseline. -/
theorem c4_no_hands_frame_emits_ghost_volume_up (p : Params) :
    (run p initState [(pinchF, 100), (noHandsF, 101)]).2 = [none, some "volume_up"] ∧
    (run p initState [(pinchF, 100), (noHandsF, 101)]).1.last_index_y = some 0 := by
  have hsm1 : smoothedOf initState pinchF = pinchFrame :=
    smoothedOf_replicate initState pinchFrame none 0 (by simp [pinchFrame]) rfl
  have h8 : getCoords (smoothedOf initState pinchF) 8 = some ⟨1/2, 1/2, 1/5⟩ := by
    rw [hsm1]; rfl
  have h4 : getCoords (smoothedOf initState pinchF) 4 = some ⟨1/2, 1/2, 1/5⟩ := by
    rw [hsm1]; rfl
  have hc1 : ¬ (100 : ℚ) - initState.last_action_time < COOLDOWN := by
    show ¬ (100 : ℚ) - 0 < COOLDOWN
    norm_num [COOLDOWN]
  have hp : distSq ⟨1/2, 1/2, 1/5⟩ ⟨1/2, 1/2, 1/5⟩ < PINCH_THRESHOLD_3D ^ 2 := by
    norm_num [distSq, PINCH_THRESHOLD_3D]
  have hv1 : handleVolume initState.last_index_y (⟨1/2, 1/2, 1/5⟩ : Coord3).y =
      (some (1/2), none) := rfl
  have step2 : ∀ st2 : EngineState, st2.last_action_time = 0 →
      st2.last_index_y = some (1/2) →
      process p st2 noHandsF 101 =
        ⟨{ st2 with
            history := smoothedHistory st2 noHandsF
            landmark_buffer := bufferAfter p st2 noHandsF
            current_stable_gesture := none
            gesture_count := 0
            last_index_y := some 0
            last_action_time := 101 },
          some "volume_up", false⟩ := by
    intro st2 hla hli
    refine process_pinch_cmd p st2 noHandsF 101 ⟨0, 0, 0⟩ ⟨0, 0, 0⟩ (some 0) "volume_up"
      ?_ rfl rfl ?_ ?_
    · rw [hla]
      norm_num [COOLDOWN]
    · norm_num [distSq, PINCH_THRESHOLD_3D]
    · rw [hli]
      show handleVolume (some (1/2 : ℚ)) 0 = (some 0, some "volume_up")
      rw [handleVolume]
      norm_num [VOLUME_MOVE_THRESHOLD]
  rw [run, process_pinch_nocmd p initState pinchF 100 ⟨1/2, 1/2, 1/5⟩ ⟨1/2, 1/2, 1/5⟩
    (some (1/2)) hc1 h8 h4 hp hv1]
  dsimp only
  rw [run, step2 _ rfl rfl]
  exact ⟨rfl, rfl⟩

/-- Claim C5: commands are emitted at times pairwise separated by at
least the cooldown (0.8s), for every model, configuration, start state
and frame sequence; and every processed frame appends exactly one
normalized feature vector to the landmark buffer, cooldown or not. -/
theorem c5_cooldown_invariant_and_buffering (p : Params) (st : EngineState)
    (fts : List (Frame × ℚ)) :
    (emitTimes p st fts).Pairwise (fun a b => a + COOLDOWN ≤ b) ∧
    ∀ (f : Frame) (now : ℚ),
      (process p st f now).state.landmark_buffer =
        pushBounded BUFFER_SIZE st.landmark_buffer
          (normalizeFeatures p.sqrtFn (smoothedOf st f) (f.pose.getD [])) :=
  ⟨emitTimes_pairwise p fts st, fun f now => process_buffer p st f now⟩

/-- Claim C6: with a recorded baseline, a delta inside the dead band
(strictness included: exactly 0.025 does not fire) emits nothing and
keeps the baseline; a delta strictly above `+0.025` emits `volume_up`
and advances the baseline; strictly below `−0.025` emits `volume_down`
and advances the baseline. -/
theorem c6_volume_dead_band (b y : ℚ) :
    (|b - y| ≤ VOLUME_MOVE_THRESHOLD → handleVolume (some b) y = (some b, none)) ∧
    (b - y > VOLUME_MOVE_THRESHOLD → handleVolume (some b) y = (some y, some "volume_up")) ∧
    (b - y < -VOLUME_MOVE_THRESHOLD →
      handleVolume (some b) y = (some y, some "volume_down")) := by
  have hth : (0 : ℚ) < VOLUME_MOVE_THRESHOLD := by norm_num [VOLUME_MOVE_THRESHOLD]
  refine ⟨?_, ?_, ?_⟩ <;> intro h <;> rw [handleVolume]
  · rw [if_neg (by rw [not_lt]; exact (abs_le.mp h).2),
      if_neg (by rw [not_lt]; exact (abs_le.mp h).1)]
  · rw [if_pos h]
  · rw [if_neg (by rw [not_lt]; linarith), if_pos h]

/-- Witness for C6 at deltas 0, +1/2 and −1/2. -/
theorem c6_volume_dead_band_witness :
    handleVolume (some ((1 : ℚ)/2)) (1/2) = (some (1/2), none) ∧
    handleVolume (some ((1 : ℚ)/2)) 0 = (some 0, some "volume_up") ∧
    handleVolume (some ((0 : ℚ))) (1/2) = (some (1/2), some "volume_down") :=
  ⟨(c6_volume_dead_band (1/2) (1/2)).1 (by norm_num [VOLUME_MOVE_THRESHOLD]),
   (c6_volume_dead_band (1/2) 0).2.1 (by norm_num [VOLUME_MOVE_THRESHOLD]),
   (c6_volume_dead_band 0 (1/2)).2.2 (by norm_num [VOLUME_MOVE_THRESHOLD])⟩

/-- Claim C7: the context gate passes every label other than
`play_pause_shape`, passes whenever pose data is absent, and for
`play_pause_shape` with a pose carrying nose coordinates it vetoes
exactly when both the horizontal and the vertical wrist-nose offsets are
strictly below 0.25. -/
theorem c7_context_gate (g : Option String) (pose : Option (List ℚ)) (pl : List ℚ)
    (wrist : Coord3) (nx ny : ℚ) :
    (g ≠ some "play_pause_shape" → isGestureContextuallyValid g pose wrist = true) ∧
    isGestureContextuallyValid g none wrist = true ∧
    (pl.get? 0 = some nx → pl.get? 1 = some ny →
      (isGestureContextuallyValid (some "play_pause_shape") (some pl) wrist = false ↔
        |wrist.x - nx| < 1/4 ∧ |wrist.y - ny| < 1/4)) := by
  refine ⟨?_, ?_, ?_⟩
  · intro hg
    unfold isGestureContextuallyValid
    rw [if_pos hg]
  · unfold isGestureContextuallyValid
    split
    · rfl
    · rfl
  · intro h0 h1
    unfold isGestureContextuallyValid
    rw [if_neg (by simp)]
    dsimp only
    rw [h0, h1]
    dsimp only
    split_ifs with h
    · simpa using And.intro h.2 h.1
    · constructor
      · intro hcontra
        simp at hcontra
      · intro hcond
        exact absurd ⟨hcond.2, hcond.1⟩ h

/-- Witness for C7: a non-fist label passes, absent pose passes, and a
wrist at the nose is vetoed. -/
theorem c7_context_gate_witness :
    isGestureContextuallyValid (some "next_track_shape") (some [0, 0]) ⟨0, 0, 0⟩ = true ∧
    isGestureContextuallyValid (some "play_pause_shape") none ⟨0, 0, 0⟩ = true ∧
    isGestureContextuallyValid (some "play_pause_shape") (some [0, 0]) ⟨0, 0, 0⟩ = false :=
  ⟨(c7_context_gate (some "next_track_shape") (some [0, 0]) [0, 0] ⟨0, 0, 0⟩ 0 0).1
      (by decide),
   (c7_context_gate (some "play_pause_shape") none [0, 0] ⟨0, 0, 0⟩ 0 0).2.1,
   ((c7_context_gate (some "play_pause_shape") (some [0, 0]) [0, 0] ⟨0, 0, 0⟩ 0 0).2.2
      rfl rfl).mpr (by norm_num)⟩

/-- Claim C9 (code bug): `_get_coords` guards with
`len < index*3 + 2` but then also reads `lm_list[index*3 + 2]`, so a list
of length exactly `3*index + 2` slips past the guard and the read raises
`IndexError` (modelled as `none`); one element shorter, the sentinel
`(0,0,0)` is returned as documented, and one element longer the real
coordinates are read. -/
theorem c9_get_coords_boundary_index_error :
    getCoords [(0 : ℚ), 0] 0 = none ∧
    getCoords [(0 : ℚ)] 0 = some ⟨0, 0, 0⟩ ∧
    getCoords [(0 : ℚ), 0, 0] 0 = some ⟨0, 0, 0⟩ :=
  ⟨rfl, rfl, rfl⟩

/-- Claim C10: on a frame whose hands field is absent, or whose smoothed
thumb and index coordinates are readable with their distance strictly
below the pinch threshold, the model is never invoked and the inference
frame counter does not advance. -/
theorem c10_pinch_or_no_hand_frames_skip_inference (p : Params) (st : EngineState)
    (f : Frame) (now : ℚ)
    (h : f.hands = none ∨ ∃ it tt : Coord3,
      getCoords (smoothedOf st f) 8 = some it ∧
      getCoords (smoothedOf st f) 4 = some tt ∧
      distSq tt it < PINCH_THRESHOLD_3D ^ 2) :
    (process p st f now).modelCalled = false ∧
    (process p st f now).state.frame_counter = st.frame_counter := by
  rcases h with hn | ⟨it, tt, h8, h4, hp⟩
  · have hsm : smoothedOf st f = [] := by
      unfold smoothedOf
      rw [hn]
      rfl
    exact process_pinchlike p st f now ⟨0, 0, 0⟩ ⟨0, 0, 0⟩
      (by rw [hsm]; rfl) (by rw [hsm]; rfl)
      (by norm_num [distSq, PINCH_THRESHOLD_3D])
  · exact process_pinchlike p st f now it tt h8 h4 hp

/-- Witness for C10 at a hands-absent frame. -/
theorem c10_skip_inference_witness :
    (process pW initState noHandsF 0).modelCalled = false ∧
    (process pW initState noHandsF 0).state.frame_counter = initState.frame_counter :=
  c10_pinch_or_no_hand_frames_skip_inference pW initState noHandsF 0 (Or.inl rfl)

/-- Claim C8: the model is consulted only with a full (20-vector) buffer
on an inference-interval frame; a prediction with confidence at or below
its resolved threshold is discarded; a negative/background label is
discarded regardless of confidence; a passing prediction is emitted under
its suffix-cleaned name; and any emission stamps `last_action_time`
(resetting the cooldown). -/
theorem c8_model_gating_and_thresholds (p : Params) (st : EngineState) (f : Frame)
    (now : ℚ) (g : String) (conf : ℚ) :
    ((process p st f now).modelCalled = true →
      (process p st f now).state.landmark_buffer.length = BUFFER_SIZE ∧
      (process p st f now).state.frame_counter % p.inferenceInterval = 0 ∧
      (process p st f now).emission =
        mlDecision p (p.model (process p st f now).state.landmark_buffer).1
          (p.model (process p st f now).state.landmark_buffer).2) ∧
    (conf ≤ resolveThreshold p g → mlDecision p (some g) conf = none) ∧
    (isNegativeLabel g = true → mlDecision p (some g) conf = none) ∧
    (conf > resolveThreshold p g → isNegativeLabel g = false →
      mlDecision p (some g) conf = some (cleanName g)) ∧
    ((process p st f now).emission ≠ none →
      (process p st f now).state.last_action_time = now) := by
  refine ⟨process_modelCalled_props p st f now, ?_, ?_, ?_, ?_⟩
  · intro h
    unfold resolveThreshold at h
    unfold mlDecision
    dsimp only
    rw [if_neg (not_lt.mpr h)]
  · intro h
    unfold mlDecision
    dsimp only
    split <;> simp [h]
  · intro h1 h2
    unfold resolveThreshold at h1
    unfold mlDecision
    dsimp only
    rw [if_pos h1, if_neg (by simp [h2])]
  · intro h
    rcases process_emission_cases p st f now with ⟨he, _⟩ | ⟨_, hl, _⟩
    · exact absurd he h
    · exact hl

/-- Witness for C8: a model frame that reaches the inference gate, a
discarded at-threshold prediction, a discarded negative label, a passing
suffix-cleaned emission, and a volume emission stamping the cooldown. -/
theorem c8_model_gating_witness :
    ((process pW stM fistF 100).state.landmark_buffer.length = BUFFER_SIZE ∧
      (process pW stM fistF 100).state.frame_counter % pW.inferenceInterval = 0 ∧
      (process pW stM fistF 100).emission =
        mlDecision pW (pW.model (process pW stM fistF 100).state.landmark_buffer).1
          (pW.model (process pW stM fistF 100).state.landmark_buffer).2) ∧
    mlDecision pW (some "volume_up") (1/2) = none ∧
    mlDecision pW (some "no_accion") (9/10) = none ∧
    mlDecision pW (some "play_pause_INTENCIONAL") (9/10) = some "play_pause" ∧
    (process pW stB pinchF 100).state.last_action_time = 100 := by
  have hfr : fistFrame ≠ [] := by simp [fistFrame]
  have hsm : smoothedOf stM fistF = fistFrame :=
    smoothedOf_replicate stM fistFrame none 0 hfr rfl
  have hproc : process pW stM fistF 100 =
      mlStep pW
        { stM with
          history := smoothedHistory stM fistF
          landmark_buffer := bufferAfter pW stM fistF
          last_index_y := none } 100 :=
    process_nonpinch pW stM fistF 100 ⟨9/20, 3/5, 1/10⟩ ⟨3/10, 3/5, 1/2⟩
      (by show ¬ (100 : ℚ) - 0 < COOLDOWN; norm_num [COOLDOWN])
      (by rw [hsm]; rfl) (by rw [hsm]; rfl)
      (by norm_num [distSq, PINCH_THRESHOLD_3D])
  have hblen : (bufferAfter pW stM fistF).length = BUFFER_SIZE := by
    rw [bufferAfter, pushBounded_length]
    simp [stM, initState, BUFFER_SIZE]
  have hml : (process pW stM fistF 100).modelCalled = true := by
    rw [hproc]
    unfold mlStep
    dsimp only
    rw [if_pos ⟨hblen, by norm_num [stM, initState, pW]⟩]
    rfl
  refine ⟨(c8_model_gating_and_thresholds pW stM fistF 100 "x" 0).1 hml, ?_, ?_, ?_, ?_⟩
  · exact (c8_model_gating_and_thresholds pW stM fistF 100 "volume_up" (1/2)).2.1
      (by norm_num [resolveThreshold, pW])
  · exact (c8_model_gating_and_thresholds pW stM fistF 100 "no_accion" (9/10)).2.2.1
      (by decide)
  · have h := (c8_model_gating_and_thresholds pW stM fistF 100
      "play_pause_INTENCIONAL" (9/10)).2.2.2.1
      (by norm_num [resolveThreshold, pW]) (by decide)
    rwa [show cleanName "play_pause_INTENCIONAL" = "play_pause" from by decide] at h
  · have hstep : process pW stB pinchF 100 =
        ⟨{ stB with
            history := smoothedHistory stB pinchF
            landmark_buffer := bufferAfter pW stB pinchF
            current_stable_gesture := none
            gesture_count := 0
            last_index_y := some (1/2)
            last_action_time := 100 },
          some "volume_up", false⟩ := by
      have hsmB : smoothedOf stB pinchF = pinchFrame :=
        smoothedOf_replicate stB pinchFrame none 0 (by simp [pinchFrame]) rfl
      refine process_pinch_cmd pW stB pinchF 100 ⟨1/2, 1/2, 1/5⟩ ⟨1/2, 1/2, 1/5⟩
        (some (1/2)) "volume_up"
        (by show ¬ (100 : ℚ) - 0 < COOLDOWN; norm_num [COOLDOWN])
        (by rw [hsmB]; rfl) (by rw [hsmB]; rfl)
        (by norm_num [distSq, PINCH_THRESHOLD_3D]) ?_
      show handleVolume (some (1 : ℚ)) (1/2) = (some (1/2), some "volume_up")
      rw [handleVolume]
      norm_num [VOLUME_MOVE_THRESHOLD]
    exact (c8_model_gating_and_thresholds pW stB pinchF 100 "x" 0).2.2.2.2
      (by rw [hstep]; simp)

end GD
